import Mathlib

/-!
Shallow embedding of the CloudVault file-lifecycle service.

Sources embedded here:
* file.service (createFileRecord, getFileById, updateFileStatus, markFileUploaded,
  softDeleteFile, updateFileMetadata) — Prisma calls are modelled as operations on a
  list of file records; a `prisma.file.update` keyed on `id` is a rewrite of the
  matching record, returning `none` when no record matches (Prisma throws P2025).
* file.routes (upload-url, download-url, delete, confirm-upload handlers).
* auth.service (generateApiKey, hashApiKey, validateApiKey) — the SHA-256 digest from
  node's crypto is an external collaborator and is threaded through as an arbitrary
  function `hashFn`; randomness is threaded through as the hex string it produces.
* auth.middleware (requirePermission).
* queue.service (enqueueFileProcessing, default job options) and the worker's
  processFileJob.
-/

namespace CloudVault

/-- File lifecycle states, from the Prisma FileStatus enum. -/
inductive FileStatus
  | PENDING_UPLOAD
  | UPLOADED
  | PROCESSING
  | PROCESSED
  | FAILED
  | DELETED
deriving DecidableEq, Repr, Fintype

/-- JavaScript String.prototype.startsWith, modelled on the character list. -/
def jsStartsWith (s pre : String) : Bool :=
  pre.data.isPrefixOf s.data

/-- A row of the `file` table. JSON metadata is modelled as an association list. -/
structure FileRecord where
  id : String
  organizationId : String
  bucket : String
  key : String
  originalName : String
  mimeType : String
  size : Int
  checksum : Option String
  status : FileStatus
  metadata : List (String × String)
  tags : List String
  uploadedBy : Option String
deriving DecidableEq, Repr

/-- The file table of the persistence store. -/
abbrev Registry := List FileRecord

/-- `prisma.file.update({ where: { id }, data })`: rewrites the matching record,
`none` when no record has this id (Prisma raises P2025). The `where` clause is
exactly the id — nothing else is compared. -/
def prismaUpdate (db : Registry) (fileId : String) (upd : FileRecord → FileRecord) :
    Option (Registry × FileRecord) :=
  match List.find? (fun f => f.id == fileId) db with
  | none => none
  | some f => some (List.map (fun g => if g.id == fileId then upd g else g) db, upd f)

/-- getFileById (file.service): `findFirst` scoped by id, organizationId and
`status ≠ DELETED`. -/
def getFileById (db : Registry) (fileId organizationId : String) : Option FileRecord :=
  List.find? (fun f => f.id == fileId && f.organizationId == organizationId &&
    !(f.status == FileStatus.DELETED)) db

/-- updateFileStatus (file.service): `prisma.file.update` keyed by id alone.
The write carries NO precondition on the current status, and the
`organizationId` argument is not used in the `where` clause. -/
def updateFileStatus (db : Registry) (fileId : String) (_organizationId : String)
    (status : FileStatus) : Option (Registry × FileRecord) :=
  prismaUpdate db fileId (fun f => { f with status := status })

/-- markFileUploaded (file.service). -/
def markFileUploaded (db : Registry) (fileId organizationId : String) :
    Option (Registry × FileRecord) :=
  updateFileStatus db fileId organizationId FileStatus.UPLOADED

/-- softDeleteFile (file.service): sets status DELETED, keyed by id alone. -/
def softDeleteFile (db : Registry) (fileId : String) : Option (Registry × FileRecord) :=
  prismaUpdate db fileId (fun f => { f with status := FileStatus.DELETED })

/-- updateFileMetadata (file.service): one `prisma.file.update` that writes the
metadata, the checksum when supplied and truthy, and status PROCESSED — with no
condition on the current status or on any task result. -/
def updateFileMetadata (db : Registry) (fileId : String)
    (metadata : List (String × String)) (checksum : Option String) :
    Option (Registry × FileRecord) :=
  prismaUpdate db fileId (fun f =>
    { f with
      metadata := metadata
      checksum := match checksum with
        | some c => if c = "" then f.checksum else some c
        | none => f.checksum
      status := FileStatus.PROCESSED })

/-- Parameters of createFileRecord (file.service). -/
structure CreateFileParams where
  organizationId : String
  bucket : String
  key : String
  originalName : String
  mimeType : String
  size : Int
  uploadedBy : String
  tags : List String
  metadata : List (String × String)
deriving DecidableEq, Repr

/-- createFileRecord (file.service): inserts a fresh row with status
PENDING_UPLOAD and no checksum. The generated id is threaded in. -/
def createFileRecord (db : Registry) (newId : String) (p : CreateFileParams) :
    Registry × FileRecord :=
  let f : FileRecord :=
    { id := newId
      organizationId := p.organizationId
      bucket := p.bucket
      key := p.key
      originalName := p.originalName
      mimeType := p.mimeType
      size := p.size
      checksum := none
      status := FileStatus.PENDING_UPLOAD
      metadata := p.metadata
      tags := p.tags
      uploadedBy := some p.uploadedBy }
  (db ++ [f], f)

/-! Queue service (part of the API package) and the worker. -/

/-- Job name constants (FILE_JOBS, identical in queue.service and worker config). -/
def VALIDATE_FILE : String := "validate-file"

/-- Job name for checksum generation. -/
def GENERATE_CHECKSUM : String := "generate-checksum"

/-- Job name for metadata extraction. -/
def EXTRACT_METADATA : String := "extract-metadata"

/-- Job name for thumbnail generation. -/
def GENERATE_THUMBNAIL : String := "generate-thumbnail"

/-- Retry policy of a queue (BullMQ defaultJobOptions). -/
structure JobOptions where
  attempts : Nat
  backoffType : String
  backoffDelayMs : Nat
deriving DecidableEq, Repr

/-- defaultJobOptions of the file-processing queue (queue.service, and the
worker's DEFAULT_JOB_OPTIONS): 3 attempts, exponential backoff, 1000 ms base. -/
def defaultJobOptions : JobOptions :=
  { attempts := 3, backoffType := "exponential", backoffDelayMs := 1000 }

/-- Payload shared by every job of one file (FileJobData). -/
structure FileJobData where
  fileId : String
  organizationId : String
  key : String
  bucket : String
  mimeType : String
deriving DecidableEq, Repr

/-- enqueueFileProcessing (queue.service): the (job name, priority) pairs added to
the file-processing queue for one file. validate, checksum and metadata are added
unconditionally; thumbnail is added exactly when the mimeType starts with
"image/". -/
def enqueueFileProcessing (params : FileJobData) : List (String × Nat) :=
  [(VALIDATE_FILE, 1), (GENERATE_CHECKSUM, 2), (EXTRACT_METADATA, 3)] ++
    (if jsStartsWith params.mimeType "image/" then [(GENERATE_THUMBNAIL, 4)] else [])

/-- Result value a worker job returns to BullMQ. -/
inductive JobOutcome
  | validation (valid : Bool)
  | checksumValue (value : String)
  | metadataFragment (fragment : List (String × String))
  | thumbnailSkipped
  | unknownJob
deriving DecidableEq, Repr

/-- processFileJob (file.worker): dispatches on the job name and returns the
task's result value. The simulated task bodies only sleep and return; none of
them reads or writes the file registry. The checksum embeds the current time,
threaded in as `nowHex`. -/
def processFileJob (nowHex : String) (name : String) (data : FileJobData) : JobOutcome :=
  if name == VALIDATE_FILE then JobOutcome.validation true
  else if name == GENERATE_CHECKSUM then JobOutcome.checksumValue ("sha256-" ++ nowHex)
  else if name == EXTRACT_METADATA then
    JobOutcome.metadataFragment
      [("mimeType", data.mimeType), ("processingVersion", "1.0.0")]
  else if name == GENERATE_THUMBNAIL then JobOutcome.thumbnailSkipped
  else JobOutcome.unknownJob

/-- The worker consuming a list of jobs: each yields its result value; the file
registry is passed through untouched, because processFileJob has no registry
access (the worker package imports no database client and performs no writes). -/
def runWorkerJobs (nowHex : String) (db : Registry) (jobs : List (String × FileJobData)) :
    Registry × List JobOutcome :=
  (db, List.map (fun j => processFileJob nowHex j.1 j.2) jobs)

/-! Route handlers (file.routes). Each handler is a function of the registry and
the authenticated organization; its outward-visible effects (blob-store calls,
queue adds, registry writes) are part of the returned outcome. -/

/-- Machine-readable error codes of the JSON error responses. -/
inductive ApiError
  | VALIDATION_ERROR
  | AUTHENTICATION_ERROR
  | AUTHORIZATION_ERROR
  | NOT_FOUND
  | INVALID_STATE (currentStatus : FileStatus)
  | INTERNAL_ERROR
deriving DecidableEq, Repr

/-- Response of GET /files/:id. -/
inductive GetFileResult
  | error (e : ApiError)
  | ok (file : FileRecord)
deriving DecidableEq, Repr

/-- GET /files/:id handler. -/
def getFileHandler (db : Registry) (organizationId fileId : String) : GetFileResult :=
  match getFileById db fileId organizationId with
  | none => GetFileResult.error ApiError.NOT_FOUND
  | some file => GetFileResult.ok file

/-- Response of GET /files/:id/download-url. -/
inductive DownloadResult
  | error (e : ApiError)
  | ok (key : String) (filename : String)
deriving DecidableEq, Repr

/-- Download-url handler outcome: the response plus the number of pre-signed-URL
requests made against the blob store. -/
structure DownloadOutcome where
  result : DownloadResult
  blobCalls : Nat
deriving DecidableEq, Repr

/-- GET /files/:id/download-url handler: 404 when the scoped lookup misses,
INVALID_STATE unless the status is PROCESSED or UPLOADED, and only then one
generateDownloadUrl call. -/
def downloadUrlHandler (db : Registry) (organizationId fileId : String) : DownloadOutcome :=
  match getFileById db fileId organizationId with
  | none => { result := DownloadResult.error ApiError.NOT_FOUND, blobCalls := 0 }
  | some file =>
      if !(file.status == FileStatus.PROCESSED) && !(file.status == FileStatus.UPLOADED) then
        { result := DownloadResult.error (ApiError.INVALID_STATE file.status), blobCalls := 0 }
      else
        { result := DownloadResult.ok file.key file.originalName, blobCalls := 1 }

/-- DELETE /files/:id handler outcome: `none` result means 204 No Content. -/
structure DeleteOutcome where
  result : Option ApiError
  db : Registry
deriving DecidableEq, Repr

/-- DELETE /files/:id handler. -/
def deleteFileHandler (db : Registry) (organizationId fileId : String) : DeleteOutcome :=
  match getFileById db fileId organizationId with
  | none => { result := some ApiError.NOT_FOUND, db := db }
  | some file =>
      match softDeleteFile db file.id with
      | none => { result := some ApiError.INTERNAL_ERROR, db := db }
      | some (db2, _) => { result := none, db := db2 }

/-- Response of POST /files/:id/confirm-upload. -/
inductive ConfirmResult
  | error (e : ApiError)
  | ok (file : FileRecord)
deriving DecidableEq, Repr

/-- True exactly on a success response. -/
def ConfirmResult.isOk : ConfirmResult → Bool
  | ConfirmResult.ok _ => true
  | ConfirmResult.error _ => false

/-- Confirm-upload handler outcome: response, resulting registry, and the jobs
added to the processing queue. -/
structure ConfirmOutcome where
  result : ConfirmResult
  db : Registry
  enqueued : List (String × Nat)
deriving DecidableEq, Repr

/-- The act phase of the confirm-upload handler: given the snapshot the handler
read earlier, reject on the snapshot's status, otherwise write status UPLOADED
through markFileUploaded (an unconditional update keyed by id) against the
CURRENT registry and enqueue the processing jobs. -/
def confirmActPhase (db : Registry) (organizationId : String)
    (snapshot : Option FileRecord) : ConfirmOutcome :=
  match snapshot with
  | none => { result := ConfirmResult.error ApiError.NOT_FOUND, db := db, enqueued := [] }
  | some file =>
      if !(file.status == FileStatus.PENDING_UPLOAD) then
        { result := ConfirmResult.error (ApiError.INVALID_STATE file.status)
          db := db, enqueued := [] }
      else
        match markFileUploaded db file.id organizationId with
        | none => { result := ConfirmResult.error ApiError.INTERNAL_ERROR, db := db, enqueued := [] }
        | some (db2, updatedFile) =>
            { result := ConfirmResult.ok updatedFile
              db := db2
              enqueued := enqueueFileProcessing
                { fileId := file.id, organizationId := organizationId, key := file.key,
                  bucket := file.bucket, mimeType := file.mimeType } }

/-- POST /files/:id/confirm-upload handler, run to completion in isolation: the
read (getFileById) immediately followed by the act phase. -/
def confirmUploadHandler (db : Registry) (organizationId fileId : String) : ConfirmOutcome :=
  confirmActPhase db organizationId (getFileById db fileId organizationId)

/-! Upload request validation (file.validators) and the upload-url handler. -/

/-- ALLOWED_MIME_TYPES (file.validators). -/
def ALLOWED_MIME_TYPES : List String :=
  ["application/pdf", "image/jpeg", "image/png", "image/gif", "image/webp",
   "text/csv", "text/plain", "application/json",
   "application/vnd.openxmlformats-officedocument.spreadsheetml.sheet",
   "application/vnd.ms-excel"]

/-- MAX_FILE_SIZE (file.validators): 100 MB. -/
def MAX_FILE_SIZE : Int := 100 * 1024 * 1024

/-- Body of POST /files/upload-url. The declared size arrives as a JSON number,
modelled as a rational so that the `.int()` refinement is observable. -/
structure UploadRequestBody where
  filename : String
  contentType : String
  size : ℚ
  tags : List String
  metadata : List (String × String)
deriving DecidableEq, Repr

/-- uploadRequestSchema (file.validators): filename 1..255 chars, contentType in
the allow-list, size a positive integer of at most MAX_FILE_SIZE, at most 10
tags of at most 50 chars each. -/
def uploadRequestValid (b : UploadRequestBody) : Bool :=
  decide (1 ≤ b.filename.length) && decide (b.filename.length ≤ 255) &&
  List.contains ALLOWED_MIME_TYPES b.contentType &&
  (b.size.den == 1) && decide (0 < b.size) && decide (b.size ≤ (MAX_FILE_SIZE : ℚ)) &&
  decide (b.tags.length ≤ 10) && List.all b.tags (fun t => decide (t.length ≤ 50))

/-- Response of POST /files/upload-url. -/
inductive UploadResult
  | error (e : ApiError)
  | ok (file : FileRecord)
deriving DecidableEq, Repr

/-- Upload-url handler outcome: response, resulting registry, and the ordered
trace of collaborator calls made on the success path. -/
structure UploadOutcome where
  result : UploadResult
  db : Registry
  events : List String
deriving DecidableEq, Repr

/-- POST /files/upload-url handler: schema validation first (400 on failure,
nothing touched), then createFileRecord, the audit write, and only then the
pre-signed upload URL. -/
def uploadUrlHandler (db : Registry) (organizationId apiKeyId newFileId : String)
    (b : UploadRequestBody) : UploadOutcome :=
  if !(uploadRequestValid b) then
    { result := UploadResult.error ApiError.VALIDATION_ERROR, db := db, events := [] }
  else
    let s3Key := organizationId ++ "/" ++ newFileId ++ "/" ++ b.filename
    let created := createFileRecord db newFileId
      { organizationId := organizationId
        bucket := "cloudvault-files"
        key := s3Key
        originalName := b.filename
        mimeType := b.contentType
        size := b.size.num
        uploadedBy := apiKeyId
        tags := b.tags
        metadata := b.metadata }
    { result := UploadResult.ok created.2
      db := created.1
      events := ["createFileRecord", "createAuditLog", "generateUploadUrl"] }

/-! Credential and authorization layer (auth.service, auth.middleware). -/

/-- A row of the apiKey table. Timestamps are integral epoch instants. -/
structure ApiKeyRecord where
  id : String
  organizationId : String
  keyPfx : String
  hashedKey : String
  permissions : List String
  expiresAt : Option Int
  lastUsedAt : Option Int
deriving DecidableEq, Repr

/-- The `apiKey.expiresAt && apiKey.expiresAt < new Date()` test of
validateApiKey: a null expiry never counts as expired. -/
def isExpired (expiresAt : Option Int) (now : Int) : Bool :=
  match expiresAt with
  | some t => decide (t < now)
  | none => false

/-- Outcome of validateApiKey: the value returned to the middleware, the
credential store afterwards, and how many store lookups were issued. -/
structure ValidateOutcome where
  result : Option ApiKeyRecord
  store : List ApiKeyRecord
  storeLookups : Nat
deriving DecidableEq, Repr

/-- validateApiKey (auth.service). Rejects before any store access when the key
is empty or lacks the cv underscore format marker; then hashes and looks the
hash up; rejects an expired match; on success fires the last-used-timestamp
update without awaiting it — `lastUsedWriteSucceeds` says whether that write
lands, and only the resulting store can depend on it. The SHA-256 digest is the
collaborator `hashFn`. -/
def validateApiKey (hashFn : String → String) (store : List ApiKeyRecord)
    (now : Int) (lastUsedWriteSucceeds : Bool) (key : String) : ValidateOutcome :=
  if key = "" || !(jsStartsWith key "cv_") then
    { result := none, store := store, storeLookups := 0 }
  else
    let hash := hashFn key
    match List.find? (fun k => k.hashedKey == hash) store with
    | none => { result := none, store := store, storeLookups := 1 }
    | some apiKey =>
        if isExpired apiKey.expiresAt now then
          { result := none, store := store, storeLookups := 1 }
        else
          { result := some apiKey
            store :=
              if lastUsedWriteSucceeds then
                List.map (fun k => if k.id == apiKey.id then { k with lastUsedAt := some now } else k)
                  store
              else store
            storeLookups := 1 }

/-- generateApiKey (auth.service): raw key "cv_" ++ 64 hex chars (the hex of the
32 random bytes is threaded in), display marker = first 11 chars of the raw key,
stored hash = hashFn of the raw key. Returned as (key, keyPfx, hash). -/
def generateApiKey (hashFn : String → String) (randomHex : String) :
    String × String × String :=
  let key := "cv_" ++ randomHex
  let pfx := String.mk (List.take 11 key.data)
  let hash := hashFn key
  (key, pfx, hash)

/-- Result of the requirePermission middleware. -/
inductive AuthzResult
  | ok
  | error (e : ApiError)
deriving DecidableEq, Repr

/-- The request's authorization context (req.auth). -/
structure AuthContext where
  organizationId : String
  apiKeyId : String
  permissions : List String
deriving DecidableEq, Repr

/-- requirePermission (auth.middleware): 401 without a context; 403
AUTHORIZATION_ERROR unless the permission set contains the required permission
or "admin"; otherwise pass. -/
def requirePermission (permission : String) (auth : Option AuthContext) : AuthzResult :=
  match auth with
  | none => AuthzResult.error ApiError.AUTHENTICATION_ERROR
  | some ctx =>
      if !(List.contains ctx.permissions permission) && !(List.contains ctx.permissions "admin") then
        AuthzResult.error ApiError.AUTHORIZATION_ERROR
      else
        AuthzResult.ok

/-! Theorems. -/

/-- The derived equality test on statuses is propositional equality. -/
theorem statusBeq (a b : FileStatus) : (a == b) = decide (a = b) := rfl

/-- Claim C6: for every authorization context and required permission, the
check passes iff the required permission is in the context's permission set or
"admin" is (admin implicitly satisfies every check); otherwise it fails with
AUTHORIZATION_ERROR. -/
theorem requirePermission_admin_superset (permission : String) (ctx : AuthContext) :
    (requirePermission permission (some ctx) = AuthzResult.ok ↔
      permission ∈ ctx.permissions ∨ "admin" ∈ ctx.permissions) ∧
    (requirePermission permission (some ctx) = AuthzResult.error ApiError.AUTHORIZATION_ERROR ↔
      ¬(permission ∈ ctx.permissions ∨ "admin" ∈ ctx.permissions)) := by
  by_cases h1 : permission ∈ ctx.permissions <;>
    by_cases h2 : "admin" ∈ ctx.permissions <;>
      simp [requirePermission, List.contains, h1, h2]

/-- Witness for C6: an admin-only key passes the upload check, a read-only key
does not. -/
theorem requirePermission_admin_superset_witness :
    requirePermission "upload"
      (some { organizationId := "orgA", apiKeyId := "k1", permissions := ["admin"] }) =
      AuthzResult.ok ∧
    requirePermission "upload"
      (some { organizationId := "orgA", apiKeyId := "k2", permissions := ["read"] }) =
      AuthzResult.error ApiError.AUTHORIZATION_ERROR :=
  ⟨(requirePermission_admin_superset "upload"
      { organizationId := "orgA", apiKeyId := "k1", permissions := ["admin"] }).1.mpr
      (by decide),
   (requirePermission_admin_superset "upload"
      { organizationId := "orgA", apiKeyId := "k2", permissions := ["read"] }).2.mpr
      (by decide)⟩

/-- Claim C8: confirming an upload enqueues exactly validate, generate-checksum
and extract-metadata for every file, plus generate-thumbnail iff the mimeType is
an image type, and the queue retries each task with exponential backoff capped
at 3 attempts. -/
theorem enqueueFileProcessing_fanout (data : FileJobData) :
    (VALIDATE_FILE, 1) ∈ enqueueFileProcessing data ∧
    (GENERATE_CHECKSUM, 2) ∈ enqueueFileProcessing data ∧
    (EXTRACT_METADATA, 3) ∈ enqueueFileProcessing data ∧
    (List.map Prod.fst (enqueueFileProcessing data) =
      [VALIDATE_FILE, GENERATE_CHECKSUM, EXTRACT_METADATA] ++
        (if jsStartsWith data.mimeType "image/" then [GENERATE_THUMBNAIL] else [])) ∧
    ((GENERATE_THUMBNAIL, 4) ∈ enqueueFileProcessing data ↔
      jsStartsWith data.mimeType "image/" = true) ∧
    defaultJobOptions.attempts = 3 ∧
    defaultJobOptions.backoffType = "exponential" := by
  by_cases h : jsStartsWith data.mimeType "image/" <;>
    simp [enqueueFileProcessing, h, VALIDATE_FILE, GENERATE_CHECKSUM, EXTRACT_METADATA,
      GENERATE_THUMBNAIL, defaultJobOptions]

/-- Witness for C8: a png gets the thumbnail job, a pdf does not. -/
theorem enqueueFileProcessing_fanout_witness :
    (GENERATE_THUMBNAIL, 4) ∈ enqueueFileProcessing
      { fileId := "f1", organizationId := "o", key := "k", bucket := "b",
        mimeType := "image/png" } ∧
    defaultJobOptions.attempts = 3 :=
  ⟨(enqueueFileProcessing_fanout
      { fileId := "f1", organizationId := "o", key := "k", bucket := "b",
        mimeType := "image/png" }).2.2.2.2.1.mpr (by decide),
   (enqueueFileProcessing_fanout
      { fileId := "f1", organizationId := "o", key := "k", bucket := "b",
        mimeType := "image/png" }).2.2.2.2.2.1⟩

/-- Claim C7: validateApiKey rejects a key without the expected format marker
before any store lookup; a matched key whose expiry lies in the past is
rejected; and the result never depends on whether the fire-and-forget last-used
write lands. -/
theorem validateApiKey_contract (hashFn : String → String) (store : List ApiKeyRecord)
    (now : Int) (w : Bool) (key : String) :
    (jsStartsWith key "cv_" = false →
      validateApiKey hashFn store now w key =
        { result := none, store := store, storeLookups := 0 }) ∧
    (∀ k, List.find? (fun r => r.hashedKey == hashFn key) store = some k →
      isExpired k.expiresAt now = true →
      (validateApiKey hashFn store now w key).result = none) ∧
    ((validateApiKey hashFn store now true key).result =
      (validateApiKey hashFn store now false key).result) := by
  refine ⟨?_, ?_, ?_⟩
  · intro h
    simp [validateApiKey, h]
  · intro k hfind hexp
    by_cases hfmt : (key = "" || !(jsStartsWith key "cv_")) = true
    · simp [validateApiKey, hfmt]
    · simp [validateApiKey, hfmt, hfind, hexp]
  · by_cases hfmt : (key = "" || !(jsStartsWith key "cv_")) = true
    · simp [validateApiKey, hfmt]
    · cases hfind : List.find? (fun k => k.hashedKey == hashFn key) store with
      | none => simp [validateApiKey, hfmt, hfind]
      | some k =>
          by_cases hexp : isExpired k.expiresAt now = true <;>
            simp [validateApiKey, hfmt, hfind, hexp]

/-- Witness for C7: a key with the wrong marker is rejected with no lookup, and
an expired key whose hash is in the store is rejected. -/
theorem validateApiKey_contract_witness :
    validateApiKey (fun s => s) [] 0 true "bad" =
      { result := none, store := [], storeLookups := 0 } ∧
    (validateApiKey (fun s => s)
      [{ id := "k1", organizationId := "o1", keyPfx := "cv_x", hashedKey := "cv_x",
         permissions := [], expiresAt := some 1, lastUsedAt := none }] 5 true "cv_x").result =
      none :=
  ⟨(validateApiKey_contract (fun s => s) [] 0 true "bad").1 (by decide),
   (validateApiKey_contract (fun s => s)
      [{ id := "k1", organizationId := "o1", keyPfx := "cv_x", hashedKey := "cv_x",
         permissions := [], expiresAt := some 1, lastUsedAt := none }] 5 true "cv_x").2.1
      { id := "k1", organizationId := "o1", keyPfx := "cv_x", hashedKey := "cv_x",
        permissions := [], expiresAt := some 1, lastUsedAt := none } (by decide) (by decide)⟩

/-- Claim C10: every triple produced by generateApiKey has a raw key carrying
the cv marker, a stored hash equal to the digest of the raw key, and a display
value equal to the key's first 11 characters; storing that triple, a fresh
unexpired key passes validateApiKey's format check and hash lookup. -/
theorem generateApiKey_roundtrip (hashFn : String → String) (randomHex : String)
    (keyId orgId : String) (perms : List String) (expiresAt : Option Int) (now : Int) (w : Bool)
    (key pfx hash : String)
    (hgen : generateApiKey hashFn randomHex = (key, pfx, hash))
    (hexp : isExpired expiresAt now = false) :
    jsStartsWith key "cv_" = true ∧
    hash = hashFn key ∧
    pfx = String.mk (List.take 11 key.data) ∧
    (validateApiKey hashFn
      [{ id := keyId, organizationId := orgId, keyPfx := pfx, hashedKey := hash,
         permissions := perms, expiresAt := expiresAt, lastUsedAt := none }] now w key).result =
      some { id := keyId, organizationId := orgId, keyPfx := pfx, hashedKey := hash,
             permissions := perms, expiresAt := expiresAt, lastUsedAt := none } ∧
    (validateApiKey hashFn
      [{ id := keyId, organizationId := orgId, keyPfx := pfx, hashedKey := hash,
         permissions := perms, expiresAt := expiresAt, lastUsedAt := none }] now w key).storeLookups =
      1 := by
  rw [generateApiKey] at hgen
  simp only [Prod.mk.injEq] at hgen
  obtain ⟨hkey, hpfx, hhash⟩ := hgen
  subst hkey
  have hstarts : jsStartsWith ("cv_" ++ randomHex) "cv_" = true := by
    simp only [jsStartsWith, String.data_append, List.isPrefixOf_iff_prefix]
    exact List.prefix_append _ _
  have hne : ¬("cv_" ++ randomHex = "") := by
    intro hcontr
    rw [hcontr] at hstarts
    exact absurd hstarts (by decide)
  refine ⟨hstarts, hhash.symm, hpfx.symm, ?_, ?_⟩ <;>
    simp [validateApiKey, hne, hstarts, List.find?, hhash, hexp]

/-- Witness for C10 at a concrete random string and digest function. -/
theorem generateApiKey_roundtrip_witness :
    (validateApiKey (fun s => s)
      [{ id := "k1", organizationId := "o1", keyPfx := "cv_abc", hashedKey := "cv_abc",
         permissions := [], expiresAt := none, lastUsedAt := none }] 0 true "cv_abc").result =
      some { id := "k1", organizationId := "o1", keyPfx := "cv_abc", hashedKey := "cv_abc",
             permissions := [], expiresAt := none, lastUsedAt := none } :=
  (generateApiKey_roundtrip (fun s => s) "abc" "k1" "o1" [] none 0 true
    "cv_abc" "cv_abc" "cv_abc" (by decide) (by decide)).2.2.2.1

/-- Claim C9: the upload request is rejected with VALIDATION_ERROR when the
content type is outside the allow-list, the size exceeds 100 MB, or the size is
not a positive integer; on success the file record is created with status
PENDING_UPLOAD (and the pre-signed URL is issued only after the record
exists). -/
theorem uploadUrlHandler_contract (db : Registry) (org keyId fid : String)
    (b : UploadRequestBody) :
    (b.contentType ∉ ALLOWED_MIME_TYPES →
      uploadUrlHandler db org keyId fid b =
        { result := UploadResult.error ApiError.VALIDATION_ERROR, db := db, events := [] }) ∧
    ((MAX_FILE_SIZE : ℚ) < b.size →
      uploadUrlHandler db org keyId fid b =
        { result := UploadResult.error ApiError.VALIDATION_ERROR, db := db, events := [] }) ∧
    (¬(b.size.den = 1 ∧ 0 < b.size) →
      uploadUrlHandler db org keyId fid b =
        { result := UploadResult.error ApiError.VALIDATION_ERROR, db := db, events := [] }) ∧
    (∀ f, (uploadUrlHandler db org keyId fid b).result = UploadResult.ok f →
      f.status = FileStatus.PENDING_UPLOAD ∧ f.checksum = none ∧
      f ∈ (uploadUrlHandler db org keyId fid b).db ∧
      (uploadUrlHandler db org keyId fid b).events =
        ["createFileRecord", "createAuditLog", "generateUploadUrl"]) := by
  by_cases hv : uploadRequestValid b = true
  · have hparts := hv
    rw [uploadRequestValid] at hparts
    simp only [Bool.and_eq_true, decide_eq_true_eq, beq_iff_eq, List.contains,
      List.elem_eq_mem] at hparts
    obtain ⟨⟨⟨⟨⟨⟨⟨hf1, hf2⟩, hct⟩, hden⟩, hpos⟩, hle⟩, htags⟩, hall⟩ := hparts
    refine ⟨?_, ?_, ?_, ?_⟩
    · intro h
      exact absurd hct h
    · intro h
      exact absurd hle (not_le.mpr h)
    · intro h
      exact absurd ⟨hden, hpos⟩ h
    · intro f hf
      simp only [uploadUrlHandler, hv, Bool.not_true, createFileRecord, Bool.false_eq_true,
        if_false, UploadResult.ok.injEq] at hf ⊢
      subst hf
      simp
  · have hfalse : uploadRequestValid b = false := by
      cases h : uploadRequestValid b
      · rfl
      · exact absurd h hv
    refine ⟨fun _ => ?_, fun _ => ?_, fun _ => ?_, fun f hf => ?_⟩ <;>
      simp_all [uploadUrlHandler, hfalse]

/-- Witness for C9: a disallowed content type is rejected, and a valid pdf
request creates a PENDING_UPLOAD record. -/
theorem uploadUrlHandler_contract_witness :
    uploadUrlHandler [] "orgA" "k1" "f1"
      { filename := "a.zip", contentType := "application/zip", size := 5,
        tags := [], metadata := [] } =
      { result := UploadResult.error ApiError.VALIDATION_ERROR, db := [], events := [] } ∧
    ({ id := "f1", organizationId := "orgA", bucket := "cloudvault-files",
       key := "orgA/f1/report.pdf", originalName := "report.pdf",
       mimeType := "application/pdf", size := 1200, checksum := none,
       status := FileStatus.PENDING_UPLOAD, metadata := [], tags := [],
       uploadedBy := some "k1" } : FileRecord).status = FileStatus.PENDING_UPLOAD :=
  ⟨(uploadUrlHandler_contract [] "orgA" "k1" "f1"
      { filename := "a.zip", contentType := "application/zip", size := 5,
        tags := [], metadata := [] }).1 (by decide),
   ((uploadUrlHandler_contract [] "orgA" "k1" "f1"
      { filename := "report.pdf", contentType := "application/pdf", size := 1200,
        tags := [], metadata := [] }).2.2.2
      { id := "f1", organizationId := "orgA", bucket := "cloudvault-files",
        key := "orgA/f1/report.pdf", originalName := "report.pdf",
        mimeType := "application/pdf", size := 1200, checksum := none,
        status := FileStatus.PENDING_UPLOAD, metadata := [], tags := [],
        uploadedBy := some "k1" } (by decide)).1⟩

/-- A soft-deleted file, used to probe the handlers at status DELETED. -/
def deletedPdf : FileRecord :=
  { id := "f9", organizationId := "orgA", bucket := "cloudvault-files",
    key := "orgA/f9/a.pdf", originalName := "a.pdf", mimeType := "application/pdf",
    size := 10, checksum := none, status := FileStatus.DELETED, metadata := [],
    tags := [], uploadedBy := some "k1" }

/-- Claim C3 counterexample: a file whose status is DELETED — a status outside
{UPLOADED, PROCESSED} — is answered with NOT_FOUND, not with the INVALID_STATE
error code the claim requires for every other status. -/
theorem downloadUrl_deleted_not_invalid_state :
    deletedPdf.status ≠ FileStatus.UPLOADED ∧
    deletedPdf.status ≠ FileStatus.PROCESSED ∧
    (downloadUrlHandler [deletedPdf] "orgA" "f9").result =
      DownloadResult.error ApiError.NOT_FOUND ∧
    (∀ st : FileStatus, (downloadUrlHandler [deletedPdf] "orgA" "f9").result ≠
      DownloadResult.error (ApiError.INVALID_STATE st)) ∧
    (downloadUrlHandler [deletedPdf] "orgA" "f9").blobCalls = 0 := by
  decide

/-- Claim C3 amended: a download-URL request succeeds iff the status is
UPLOADED or PROCESSED, and the blob store is contacted exactly on success; a
PENDING_UPLOAD, PROCESSING or FAILED file fails with INVALID_STATE; a DELETED
file is treated as absent and fails with NOT_FOUND. -/
theorem downloadUrl_eligibility (f : FileRecord) (org fid : String)
    (hid : f.id = fid) (horg : f.organizationId = org) :
    ((downloadUrlHandler [f] org fid).result = DownloadResult.ok f.key f.originalName ↔
      (f.status = FileStatus.UPLOADED ∨ f.status = FileStatus.PROCESSED)) ∧
    ((downloadUrlHandler [f] org fid).blobCalls = 1 ↔
      (f.status = FileStatus.UPLOADED ∨ f.status = FileStatus.PROCESSED)) ∧
    ((downloadUrlHandler [f] org fid).blobCalls = 0 ↔
      ¬(f.status = FileStatus.UPLOADED ∨ f.status = FileStatus.PROCESSED)) ∧
    (f.status = FileStatus.PENDING_UPLOAD ∨ f.status = FileStatus.PROCESSING ∨
        f.status = FileStatus.FAILED →
      (downloadUrlHandler [f] org fid).result =
        DownloadResult.error (ApiError.INVALID_STATE f.status)) ∧
    (f.status = FileStatus.DELETED →
      (downloadUrlHandler [f] org fid).result = DownloadResult.error ApiError.NOT_FOUND) := by
  subst hid horg
  cases h : f.status <;>
    simp [downloadUrlHandler, getFileById, List.find?, statusBeq, h]

/-- Witness for the amended C3: an UPLOADED file is served, a PROCESSING file
is rejected with INVALID_STATE and no blob-store call. -/
theorem downloadUrl_eligibility_witness :
    (downloadUrlHandler [{ deletedPdf with id := "u1", status := FileStatus.UPLOADED }]
      "orgA" "u1").result =
      DownloadResult.ok deletedPdf.key deletedPdf.originalName ∧
    (downloadUrlHandler [{ deletedPdf with id := "p1", status := FileStatus.PROCESSING }]
      "orgA" "p1").result =
      DownloadResult.error (ApiError.INVALID_STATE FileStatus.PROCESSING) ∧
    (downloadUrlHandler [{ deletedPdf with id := "p1", status := FileStatus.PROCESSING }]
      "orgA" "p1").blobCalls = 0 :=
  ⟨(downloadUrl_eligibility { deletedPdf with id := "u1", status := FileStatus.UPLOADED }
      "orgA" "u1" rfl rfl).1.mpr (Or.inl rfl),
   (downloadUrl_eligibility { deletedPdf with id := "p1", status := FileStatus.PROCESSING }
      "orgA" "p1" rfl rfl).2.2.2.1 (Or.inr (Or.inl rfl)),
   (downloadUrl_eligibility { deletedPdf with id := "p1", status := FileStatus.PROCESSING }
      "orgA" "p1" rfl rfl).2.2.1.mpr (by decide)⟩

/-- Claim C4 counterexample: confirming a DELETED file — whose status is not
PENDING_UPLOAD — is rejected with NOT_FOUND, not with the INVALID_STATE error
the claim requires for every non-PENDING_UPLOAD status. -/
theorem confirm_deleted_not_invalid_state :
    deletedPdf.status ≠ FileStatus.PENDING_UPLOAD ∧
    (confirmUploadHandler [deletedPdf] "orgA" "f9").result =
      ConfirmResult.error ApiError.NOT_FOUND ∧
    (∀ st : FileStatus, (confirmUploadHandler [deletedPdf] "orgA" "f9").result ≠
      ConfirmResult.error (ApiError.INVALID_STATE st)) ∧
    (confirmUploadHandler [deletedPdf] "orgA" "f9").db = [deletedPdf] ∧
    (confirmUploadHandler [deletedPdf] "orgA" "f9").enqueued = [] := by
  decide

/-- Claim C4 amended: confirming a file whose status is not PENDING_UPLOAD is
rejected with no transition and no enqueue; the error is INVALID_STATE for
UPLOADED, PROCESSING, PROCESSED and FAILED, and NOT_FOUND for DELETED (a
deleted file is treated as absent). In particular an already-UPLOADED file is a
reported INVALID_STATE error, never silently accepted. -/
theorem confirm_non_pending_rejected (f : FileRecord) (org fid : String)
    (hid : f.id = fid) (horg : f.organizationId = org)
    (hne : f.status ≠ FileStatus.PENDING_UPLOAD) :
    (confirmUploadHandler [f] org fid).db = [f] ∧
    (confirmUploadHandler [f] org fid).enqueued = [] ∧
    (confirmUploadHandler [f] org fid).result.isOk = false ∧
    (f.status ≠ FileStatus.DELETED →
      (confirmUploadHandler [f] org fid).result =
        ConfirmResult.error (ApiError.INVALID_STATE f.status)) ∧
    (f.status = FileStatus.DELETED →
      (confirmUploadHandler [f] org fid).result = ConfirmResult.error ApiError.NOT_FOUND) := by
  subst hid horg
  cases h : f.status <;>
    simp_all [confirmUploadHandler, confirmActPhase, getFileById, List.find?, statusBeq,
      ConfirmResult.isOk]

/-- Witness for the amended C4: a second confirmation of an UPLOADED file is an
INVALID_STATE error with no state change and no enqueue. -/
theorem confirm_non_pending_rejected_witness :
    (confirmUploadHandler [{ deletedPdf with id := "u2", status := FileStatus.UPLOADED }]
      "orgA" "u2").result =
      ConfirmResult.error (ApiError.INVALID_STATE FileStatus.UPLOADED) ∧
    (confirmUploadHandler [{ deletedPdf with id := "u2", status := FileStatus.UPLOADED }]
      "orgA" "u2").db = [{ deletedPdf with id := "u2", status := FileStatus.UPLOADED }] ∧
    (confirmUploadHandler [{ deletedPdf with id := "u2", status := FileStatus.UPLOADED }]
      "orgA" "u2").enqueued = [] :=
  ⟨(confirm_non_pending_rejected { deletedPdf with id := "u2", status := FileStatus.UPLOADED }
      "orgA" "u2" rfl rfl (by decide)).2.2.2.1 (by decide),
   (confirm_non_pending_rejected { deletedPdf with id := "u2", status := FileStatus.UPLOADED }
      "orgA" "u2" rfl rfl (by decide)).1,
   (confirm_non_pending_rejected { deletedPdf with id := "u2", status := FileStatus.UPLOADED }
      "orgA" "u2" rfl rfl (by decide)).2.1⟩

/-- Claim C5: whenever every record carrying the requested id is either owned
by another organization or soft-deleted (which subsumes the cross-tenant, the
soft-deleted and the absent case at once), the get, download-url, delete and
confirm-upload handlers all answer with the one NOT_FOUND response — never the
file, a transition, an enqueue, a blob-store call or an AUTHORIZATION_ERROR —
so the three cases are indistinguishable to the caller. -/
theorem tenant_isolation (db : Registry) (org fid : String)
    (h : ∀ g ∈ db, g.id = fid → (g.organizationId ≠ org ∨ g.status = FileStatus.DELETED)) :
    getFileById db fid org = none ∧
    getFileHandler db org fid = GetFileResult.error ApiError.NOT_FOUND ∧
    downloadUrlHandler db org fid =
      { result := DownloadResult.error ApiError.NOT_FOUND, blobCalls := 0 } ∧
    deleteFileHandler db org fid = { result := some ApiError.NOT_FOUND, db := db } ∧
    confirmUploadHandler db org fid =
      { result := ConfirmResult.error ApiError.NOT_FOUND, db := db, enqueued := [] } := by
  have hnone : getFileById db fid org = none := by
    rw [getFileById, List.find?_eq_none]
    intro g hg
    simp only [Bool.and_eq_true, beq_iff_eq, Bool.not_eq_true', statusBeq,
      decide_eq_false_iff_not, Bool.not_eq_true]
    intro hcontr
    rcases h g hg hcontr.1.1 with horg | hdel
    · exact absurd hcontr.1.2 horg
    · exact absurd hdel hcontr.2
  refine ⟨hnone, ?_, ?_, ?_, ?_⟩ <;>
    simp [getFileHandler, downloadUrlHandler, deleteFileHandler, confirmUploadHandler,
      confirmActPhase, hnone]

/-- Witness for C5: a file owned by orgA, requested under orgB, yields the same
NOT_FOUND outcomes as requesting an id that matches nothing. -/
theorem tenant_isolation_witness :
    confirmUploadHandler [{ deletedPdf with id := "x1", status := FileStatus.UPLOADED }]
      "orgB" "x1" =
      { result := ConfirmResult.error ApiError.NOT_FOUND,
        db := [{ deletedPdf with id := "x1", status := FileStatus.UPLOADED }], enqueued := [] } ∧
    downloadUrlHandler [{ deletedPdf with id := "x1", status := FileStatus.UPLOADED }]
      "orgB" "x1" =
      { result := DownloadResult.error ApiError.NOT_FOUND, blobCalls := 0 } ∧
    getFileHandler ([] : Registry) "orgB" "x1" = GetFileResult.error ApiError.NOT_FOUND :=
  ⟨(tenant_isolation [{ deletedPdf with id := "x1", status := FileStatus.UPLOADED }]
      "orgB" "x1" (by decide)).2.2.2.2,
   (tenant_isolation [{ deletedPdf with id := "x1", status := FileStatus.UPLOADED }]
      "orgB" "x1" (by decide)).2.2.1,
   (tenant_isolation ([] : Registry) "orgB" "x1" (by decide)).2.1⟩

/-- The file of the concurrency scenario: owned by orgA, awaiting its upload
confirmation. -/
def pendingPdf : FileRecord :=
  { id := "f1", organizationId := "orgA", bucket := "cloudvault-files",
    key := "orgA/f1/report.pdf", originalName := "report.pdf",
    mimeType := "application/pdf", size := 1200, checksum := none,
    status := FileStatus.PENDING_UPLOAD, metadata := [], tags := [],
    uploadedBy := some "k1" }

/-- Claim C1 (at the code): the confirm-upload transition is a read followed by
an unconditional write, not a compare-and-swap. Two confirmations that both
read the file while it is still PENDING_UPLOAD both pass the in-process status
check, both write UPLOADED and both enqueue the processing fan-out — six jobs
in total for one file — whereas a second confirmation arriving strictly after
the first is rejected with INVALID_STATE. -/
theorem confirm_race_both_succeed :
    ((confirmActPhase [pendingPdf] "orgA"
        (getFileById [pendingPdf] "f1" "orgA")).result).isOk = true ∧
    ((confirmActPhase
        (confirmActPhase [pendingPdf] "orgA" (getFileById [pendingPdf] "f1" "orgA")).db
        "orgA" (getFileById [pendingPdf] "f1" "orgA")).result).isOk = true ∧
    (confirmActPhase [pendingPdf] "orgA" (getFileById [pendingPdf] "f1" "orgA")).enqueued =
      [(VALIDATE_FILE, 1), (GENERATE_CHECKSUM, 2), (EXTRACT_METADATA, 3)] ∧
    (confirmActPhase
        (confirmActPhase [pendingPdf] "orgA" (getFileById [pendingPdf] "f1" "orgA")).db
        "orgA" (getFileById [pendingPdf] "f1" "orgA")).enqueued =
      [(VALIDATE_FILE, 1), (GENERATE_CHECKSUM, 2), (EXTRACT_METADATA, 3)] ∧
    (confirmUploadHandler
        (confirmActPhase [pendingPdf] "orgA" (getFileById [pendingPdf] "f1" "orgA")).db
        "orgA" "f1").result =
      ConfirmResult.error (ApiError.INVALID_STATE FileStatus.UPLOADED) := by
  decide

/-- The job data of the processing scenario. -/
def processingJobData : FileJobData :=
  { fileId := "f2", organizationId := "orgA", key := "orgA/f2/a.pdf",
    bucket := "cloudvault-files", mimeType := "application/pdf" }

/-- The file of the processing scenario, already confirmed. -/
def uploadedPdf : FileRecord :=
  { id := "f2", organizationId := "orgA", bucket := "cloudvault-files",
    key := "orgA/f2/a.pdf", originalName := "a.pdf", mimeType := "application/pdf",
    size := 7, checksum := none, status := FileStatus.UPLOADED, metadata := [],
    tags := [], uploadedBy := some "k1" }

/-- Claim C2 (at the code): running the worker over the full fan-out of an
uploaded pdf succeeds on all three required tasks — returning the validity
flag, the checksum string and the metadata fragment — yet leaves the registry
byte-for-byte unchanged: no record reaches PROCESSED. Conversely, the only
write that produces PROCESSED, updateFileMetadata, sets it unconditionally:
applied to a file still in PENDING_UPLOAD with no task ever run, the status
becomes PROCESSED. -/
theorem processed_gate_missing :
    (runWorkerJobs "0" [uploadedPdf]
        (List.map (fun p => (p.1, processingJobData))
          (enqueueFileProcessing processingJobData))).1 = [uploadedPdf] ∧
    (∀ f ∈ (runWorkerJobs "0" [uploadedPdf]
        (List.map (fun p => (p.1, processingJobData))
          (enqueueFileProcessing processingJobData))).1,
      f.status ≠ FileStatus.PROCESSED) ∧
    (runWorkerJobs "0" [uploadedPdf]
        (List.map (fun p => (p.1, processingJobData))
          (enqueueFileProcessing processingJobData))).2 =
      [JobOutcome.validation true, JobOutcome.checksumValue "sha256-0",
       JobOutcome.metadataFragment
         [("mimeType", "application/pdf"), ("processingVersion", "1.0.0")]] ∧
    Option.map (fun p => p.2.status)
        (updateFileMetadata [{ uploadedPdf with status := FileStatus.PENDING_UPLOAD }]
          "f2" [("note", "no task has run")] (some "c0")) =
      some FileStatus.PROCESSED := by
  decide

end CloudVault
